import Mathlib

/-!
Verification development for the qurio ingestion worker
(`apps/ingestion-worker`).  The Python source is shallowly embedded:
pure helpers become Lean functions, the effectful message loop and the
crawl retry loop become functions from explicit inputs (decoded task,
attempt counter, per-attempt oracle outcomes) to explicit effect traces
(published payloads, finish count, requeues, sleeps).  External
collaborators (broker, crawler, converter, HTTP client) are modelled as
oracle parameters at the exact interface the worker code consumes.
-/

namespace Qurio

/-! ### String utilities

Executable substring machinery mirroring Python's `in` operator on
strings and the parts of `urllib.parse` the worker uses. -/

/-- Boolean test that the first character list starts the second. -/
def leadsWith : List Char → List Char → Bool
  | [], _ => true
  | _ :: _, [] => false
  | a :: as, b :: bs => a == b && leadsWith as bs

/-- Boolean test that `needle` occurs contiguously inside `hay`,
mirroring Python's `needle in hay` on strings. -/
def hasSeq (needle : List Char) : List Char → Bool
  | [] => needle.isEmpty
  | c :: tl => leadsWith needle (c :: tl) || hasSeq needle tl

/-- String-level containment: Python `needle in hay`. -/
def strContains (hay needle : String) : Bool :=
  hasSeq needle.toList hay.toList

/-- ASCII upper-casing of one character, as Python `str.upper` acts on
the ASCII error messages the worker matches. -/
def charUpper (c : Char) : Char :=
  if c.toNat ≥ 97 && c.toNat ≤ 122 then Char.ofNat (c.toNat - 32) else c

/-- Kernel-reducible model of `str.upper` for ASCII strings. -/
def strUpper (s : String) : String :=
  String.mk (s.toList.map charUpper)

/-- ASCII lower-casing of one character, as Python `str.lower` acts on
the ASCII error messages the worker matches. -/
def charLower (c : Char) : Char :=
  if c.toNat ≥ 65 && c.toNat ≤ 90 then Char.ofNat (c.toNat + 32) else c

/-- Kernel-reducible model of `str.lower` for ASCII strings. -/
def strLower (s : String) : String :=
  String.mk (s.toList.map charLower)

/-- Whitespace characters recognised by Python `str.strip()`. -/
def isSpaceChar (c : Char) : Bool :=
  c == ' ' || c == '\t' || c == '\n' || c == '\r' || c == '\x0b' || c == '\x0c'

/-- Kernel-reducible model of Python `str.strip()`. -/
def strStrip (s : String) : String :=
  String.mk (((s.toList.dropWhile isSpaceChar).reverse.dropWhile isSpaceChar).reverse)

/-- Kernel-reducible `startsWith`. -/
def strStarts (s p : String) : Bool :=
  leadsWith p.toList s.toList

/-- Kernel-reducible `endsWith`. -/
def strEnds (s p : String) : Bool :=
  leadsWith p.toList.reverse s.toList.reverse

/-- Split a character list at the first occurrence of `needle`,
returning the part before it and the part after it. -/
def splitAtSeq (needle : List Char) : List Char → Option (List Char × List Char)
  | [] => if needle.isEmpty then some ([], []) else none
  | c :: tl =>
    if leadsWith needle (c :: tl) then
      some ([], (c :: tl).drop needle.length)
    else
      match splitAtSeq needle tl with
      | some (before, after) => some (c :: before, after)
      | none => none

/-- Model of `urllib.parse.urlparse(u).netloc` for the URLs the worker
handles: the host part of an absolute URL `scheme://host/...`, cut at
the first `/`, `?` or `#`; a URL with no `://` has an empty netloc
(Python gives the same answer for relative references such as
`/about` or `page.html`). -/
def netlocOf (u : String) : String :=
  match splitAtSeq "://".toList u.toList with
  | some (_, rest) =>
    String.mk (rest.takeWhile (fun c => c ≠ '/' && c ≠ '?' && c ≠ '#'))
  | none => ""

/-- Model of `urllib.parse.urlparse(u).path` for absolute URLs: the
part after the netloc, cut at the first `?` or `#`.  A URL with no
`://` is treated as all path (as Python does for relative references
without scheme or netloc). -/
def urlPathOf (u : String) : String :=
  match splitAtSeq "://".toList u.toList with
  | some (_, rest) =>
    String.mk
      ((rest.dropWhile (fun c => c ≠ '/' && c ≠ '?' && c ≠ '#')).takeWhile
        (fun c => c ≠ '?' && c ≠ '#'))
  | none =>
    String.mk (u.toList.takeWhile (fun c => c ≠ '?' && c ≠ '#'))

/-- Scheme of an absolute URL (the part before `://`), empty otherwise. -/
def schemeOf (u : String) : String :=
  match splitAtSeq "://".toList u.toList with
  | some (before, _) => String.mk before
  | none => ""

/-- Directory part of a URL: everything up to and including the last
`/` of its rendering.  Used to resolve relative references. -/
def urlDirOf (u : String) : String :=
  let cs := u.toList
  let rev := cs.reverse
  match rev.dropWhile (fun c => c ≠ '/') with
  | [] => u ++ "/"
  | kept => String.mk kept.reverse

/-- Model of `urllib.parse.urljoin(base, link)` for the cases the
worker meets: absolute links are kept, root-relative links are glued
to the base origin, other relative links to the base directory. -/
def urljoinModel (base link : String) : String :=
  if link = "" then base
  else if (splitAtSeq "://".toList link.toList).isSome then link
  else if strStarts link "//" then schemeOf base ++ ":" ++ link
  else if strStarts link "/" then schemeOf base ++ "://" ++ netlocOf base ++ link
  else urlDirOf base ++ link

/-! ### Error taxonomy (`exceptions.py`)

The Python error codes are string constants; `IngestionError` carries a
code and a human message. -/

def ERR_ENCRYPTED : String := "ERR_ENCRYPTED"

def ERR_INVALID_FORMAT : String := "ERR_INVALID_FORMAT"

def ERR_EMPTY : String := "ERR_EMPTY"

def ERR_TIMEOUT : String := "ERR_TIMEOUT"

def ERR_CRAWL_TIMEOUT : String := "ERR_CRAWL_TIMEOUT"

def ERR_CRAWL_DNS : String := "ERR_CRAWL_DNS"

def ERR_CRAWL_REFUSED : String := "ERR_CRAWL_REFUSED"

def ERR_CRAWL_BLOCKED : String := "ERR_CRAWL_BLOCKED"

/-- Transient error codes eligible for automatic retry
(`TRANSIENT_ERRORS` in `exceptions.py`). -/
def TRANSIENT_ERRORS : List String :=
  [ERR_TIMEOUT, ERR_CRAWL_TIMEOUT, ERR_CRAWL_DNS, ERR_CRAWL_REFUSED]

/-- Embedding of the `IngestionError` exception: an error code from the
taxonomy plus a human-readable message. -/
structure IngestionError where
  code : String
  message : String
deriving DecidableEq, Repr

/-! ### Crawl error classifier (`handlers/web.py`, `_classify_crawl_error`) -/

/-- Embedding of `_classify_crawl_error`: match the upper-cased raw
message against known Playwright/Chromium net error patterns, in the
source's priority order. -/
def classifyCrawlError (errorMessage : String) : IngestionError :=
  let msgUpper := strUpper errorMessage
  if strContains msgUpper "TIMED_OUT" || strContains msgUpper "TIMEOUT" then
    ⟨ERR_CRAWL_TIMEOUT, errorMessage⟩
  else if strContains msgUpper "ERR_NAME_NOT_RESOLVED" || strContains msgUpper "DNS" then
    ⟨ERR_CRAWL_DNS, errorMessage⟩
  else if [ "ERR_CONNECTION_REFUSED", "ERR_CONNECTION_RESET", "ERR_CONNECTION_CLOSED",
      "ECONNREFUSED", "ECONNRESET"].any (fun kw => strContains msgUpper kw) then
    ⟨ERR_CRAWL_REFUSED, errorMessage⟩
  else if strContains msgUpper "ROBOTS" || strContains msgUpper "BLOCKED" ||
      strContains msgUpper "FORBIDDEN" then
    ⟨ERR_CRAWL_BLOCKED, errorMessage⟩
  else
    ⟨ERR_CRAWL_TIMEOUT, errorMessage⟩

/-- Specification-side rendering of the classifier, written from the
spec's five-step priority description (section 4.A); compared against
the source-side `classifyCrawlError` in claim C5. -/
def classifySpecKind (s : String) : String :=
  let up := strUpper s
  if strContains up "TIMED_OUT" || strContains up "TIMEOUT" then ERR_CRAWL_TIMEOUT
  else if strContains up "ERR_NAME_NOT_RESOLVED" || strContains up "DNS" then ERR_CRAWL_DNS
  else if [ "ERR_CONNECTION_REFUSED", "ERR_CONNECTION_RESET", "ERR_CONNECTION_CLOSED",
      "ECONNREFUSED", "ECONNRESET"].any (fun kw => strContains up kw) then ERR_CRAWL_REFUSED
  else if strContains up "ROBOTS" || strContains up "BLOCKED" ||
      strContains up "FORBIDDEN" then ERR_CRAWL_BLOCKED
  else ERR_CRAWL_TIMEOUT

/-! ### JSON values

Decoded task bodies and published result payloads are JSON objects;
objects are association lists in decode order. -/

/-- JSON value, the type of decoded task fields and payload fields. -/
inductive JValue where
  | str : String → JValue
  | num : Int → JValue
  | bool : Bool → JValue
  | null : JValue
  | arr : List JValue → JValue
  | obj : List (String × JValue) → JValue

/-- Python truthiness of a JSON value, as used by `or` and `if` on
decoded fields. -/
def jTruthy : JValue → Bool
  | .str s => s ≠ ""
  | .num n => n ≠ 0
  | .bool b => b
  | .null => false
  | .arr l => !l.isEmpty
  | .obj l => !l.isEmpty

/-- Python `a or b` on JSON values. -/
def jOr (a b : JValue) : JValue :=
  if jTruthy a then a else b

/-- Model of `dict.get(k, default)` on a decoded JSON object. -/
def jGetD (d : List (String × JValue)) (k : String) (dflt : JValue) : JValue :=
  match d.find? (fun kv => kv.1 == k) with
  | some kv => kv.2
  | none => dflt

/-- Occurrence of the string `s` among the string values of a JSON
value: a secret "appears in" a payload exactly when some string value
of the payload contains it as a substring.  Stated as an inductive
predicate so that nested objects and arrays are traversed without a
fuel argument. -/
inductive JOccurs (s : String) : JValue → Prop where
  | str {t : String} : strContains t s = true → JOccurs s (.str t)
  | arrHead {x : JValue} {xs : List JValue} :
      JOccurs s x → JOccurs s (.arr (x :: xs))
  | arrTail {x : JValue} {xs : List JValue} :
      JOccurs s (.arr xs) → JOccurs s (.arr (x :: xs))
  | objHead {kv : String × JValue} {kvs : List (String × JValue)} :
      JOccurs s kv.2 → JOccurs s (.obj (kv :: kvs))
  | objTail {kv : String × JValue} {kvs : List (String × JValue)} :
      JOccurs s (.obj kvs) → JOccurs s (.obj (kv :: kvs))

/-- Occurrence of `s` in an object given as an association list. -/
def DataOccurs (s : String) (d : List (String × JValue)) : Prop :=
  ∃ kv ∈ d, JOccurs s kv.2

theorem jOccurs_obj_iff (s : String) (l : List (String × JValue)) :
    JOccurs s (.obj l) ↔ DataOccurs s l := by
  constructor
  · intro h
    induction l with
    | nil => cases h
    | cons kv kvs ih =>
      cases h with
      | objHead h0 => exact ⟨kv, List.mem_cons_self kv kvs, h0⟩
      | objTail h0 =>
        obtain ⟨kv', hmem, hocc⟩ := ih h0
        exact ⟨kv', List.mem_cons_of_mem kv hmem, hocc⟩
  · intro ⟨kv', hmem, hocc⟩
    induction l with
    | nil => cases hmem
    | cons kv kvs ih =>
      rcases List.mem_cons.mp hmem with rfl | hmem2
      · exact .objHead hocc
      · exact .objTail (ih hmem2)

theorem jOccurs_arr_strs_iff (s : String) (l : List String) :
    JOccurs s (.arr (l.map .str)) ↔ ∃ t ∈ l, strContains t s = true := by
  constructor
  · intro h
    induction l with
    | nil => cases h
    | cons t ts ih =>
      cases h with
      | arrHead h0 =>
        cases h0 with
        | str hc => exact ⟨t, List.mem_cons_self t ts, hc⟩
      | arrTail h0 =>
        obtain ⟨t', hmem, hc⟩ := ih h0
        exact ⟨t', List.mem_cons_of_mem t hmem, hc⟩
  · intro ⟨t', hmem, hc⟩
    induction l with
    | nil => cases hmem
    | cons t ts ih =>
      rcases List.mem_cons.mp hmem with rfl | hmem2
      · exact .arrHead (.str hc)
      · exact .arrTail (ih hmem2)

theorem not_jOccurs_str {s t : String} (h : strContains t s = false) :
    ¬ JOccurs s (.str t) := by
  intro hc
  cases hc with
  | str h2 => rw [h] at h2; cases h2

theorem not_jOccurs_num {s : String} {n : Int} : ¬ JOccurs s (.num n) := by
  intro hc
  cases hc

/-! ### Markdown link scanner

Embedding of `re.findall(r"\[.*?\]\((.*?)\)", raw_md)` from
`extract_web_metadata`: the regex scans left to right, `.` does not
match a newline, and the lazy quantifiers take the first `](` after
the `[` and the first `)` after the `](`. -/

/-- Scan for the first `](` with no intervening newline, returning the
characters after it. -/
def findCloseOpen : List Char → Option (List Char)
  | [] => none
  | c :: tl =>
    if c = '\n' then none
    else if c = ']' ∧ tl.head? = some '(' then some tl.tail
    else findCloseOpen tl

/-- Capture characters up to the first `)` with no intervening
newline, returning the capture and the characters after the `)`. -/
def captureTo : List Char → Option (List Char × List Char)
  | [] => none
  | c :: tl =>
    if c = '\n' then none
    else if c = ')' then some ([], tl)
    else
      match captureTo tl with
      | some (cap, rest) => some (c :: cap, rest)
      | none => none

/-- Fuel-driven scan core; each step consumes at least one input
character, so fuel equal to the input length never runs out.  The fuel
makes the recursion structural and hence kernel-reducible. -/
def scanMdLinksGo (fuel : Nat) : List Char → List String :=
  match fuel with
  | 0 => fun _ => []
  | fuel + 1 => fun cs =>
    match cs with
    | [] => []
    | c :: tl =>
      if c = '[' then
        match findCloseOpen tl with
        | some afterOpen =>
          match captureTo afterOpen with
          | some (cap, rest) => String.mk cap :: scanMdLinksGo fuel rest
          | none => scanMdLinksGo fuel tl
        | none => scanMdLinksGo fuel tl
      else scanMdLinksGo fuel tl

/-- Embedding of the markdown link regex scan: all capture groups of
`\[.*?\]\((.*?)\)` over the raw markdown, left to right. -/
def scanMdLinks (cs : List Char) : List String :=
  scanMdLinksGo cs.length cs

/-! ### Line and path helpers for `extract_web_metadata` -/

/-- Split a character list on a separator character (Python
`str.split(sep)` semantics: `n` separators give `n+1` pieces). -/
def splitOnChar (sep : Char) : List Char → List (List Char)
  | [] => [[]]
  | c :: tl =>
    if c = sep then [] :: splitOnChar sep tl
    else
      match splitOnChar sep tl with
      | l :: ls => (c :: l) :: ls
      | [] => [[c]]

/-- Join strings with a separator (Python `sep.join`). -/
def joinSep (sep : String) : List String → String
  | [] => ""
  | [s] => s
  | s :: rest => s ++ sep ++ joinSep sep rest

/-- Title match on one raw-markdown line, modelling
`re.search(r"^#\s+(.+)$", raw_md, re.MULTILINE)` followed by
`.group(1).strip()` for the common single-line case: a `#`, at least
one whitespace character, then a non-empty remainder. -/
def lineTitle : List Char → Option String
  | '#' :: rest =>
    if rest.takeWhile isSpaceChar ≠ [] ∧ rest.dropWhile isSpaceChar ≠ [] then
      some (strStrip (String.mk (rest.dropWhile isSpaceChar)))
    else none
  | _ => none

/-- First matching title among the lines, or the empty string. -/
def firstLineTitle : List (List Char) → String
  | [] => ""
  | l :: ls =>
    match lineTitle l with
    | some t => t
    | none => firstLineTitle ls

/-- Title extraction from raw markdown (`extract_web_metadata`). -/
def firstH1Title (raw : String) : String :=
  firstLineTitle (splitOnChar '\n' raw.toList)

/-- Breadcrumb path: the `" > "`-join of the non-empty `/`-separated
segments of the URL path (`extract_web_metadata`). -/
def pathBreadcrumb (u : String) : String :=
  joinSep " > "
    (((splitOnChar '/' (urlPathOf u).toList).filter (fun seg => !seg.isEmpty)).map
      String.mk)

/-! ### Web handler data model (`handlers/web.py`) -/

/-- Value of `result.markdown` on a crawl result: either the
crawl4ai v0.5+ `MarkdownGenerationResult` object carrying a raw and an
optional fit markdown (`None` modelled as `Option.none`), or a plain
string from older crawl4ai versions. -/
inductive MarkdownVal where
  | mdObj (raw : String) (fit : Option String)
  | mdStr (s : String)

/-- Embedding of `_get_raw_markdown`: the raw markdown string used for
regex link and title extraction. -/
def rawMarkdownOf : MarkdownVal → String
  | .mdObj raw _ => raw
  | .mdStr s => s

/-- Embedding of `_get_embedding_content`: prefer a non-blank
`fit_markdown`, fall back to `raw_markdown`. -/
def embeddingContentOf : MarkdownVal → String
  | .mdObj raw fit =>
    match fit with
    | some f => if f ≠ "" ∧ strStrip f ≠ "" then f else raw
    | none => raw
  | .mdStr s => s

/-- Crawl result at the interface `handle_web_task` consumes: success
flag, raw error message, final URL, markdown, and the optional
`links["internal"]` list whose members may or may not carry an
`href`. -/
structure CrawlResult where
  success : Bool
  errorMessage : String
  url : String
  markdown : MarkdownVal
  linksInternal : Option (List (Option String))

/-- The `href` values absorbed from `result.links["internal"]`
(`extract_web_metadata`, first loop): no domain filter is applied. -/
def internalHrefsOf (r : CrawlResult) : List String :=
  match r.linksInternal with
  | none => []
  | some l => l.filterMap id

/-- Output of `extract_web_metadata`. -/
structure WebMeta where
  title : String
  path : String
  links : List String

/-- Embedding of `extract_web_metadata`: absorb internal hrefs, add
regex-extracted markdown links resolved against the request URL and
kept only when their netloc equals the request URL's netloc, then
de-duplicate; extract title and breadcrumb path. -/
def extract_web_metadata (r : CrawlResult) (url : String) : WebMeta :=
  let internal := internalHrefsOf r
  let rawMd := rawMarkdownOf r.markdown
  let baseDomain := netlocOf url
  let kept := (scanMdLinks rawMd.toList).filterMap (fun link =>
    let fullUrl := urljoinModel url link
    if netlocOf fullUrl = baseDomain then some fullUrl else none)
  { title := firstH1Title rawMd
    path := pathBreadcrumb r.url
    links := (internal ++ kept).dedup }

/-- Final stage of `fetch_sitemap_urls_with_index`
(`handlers/sitemap.py`): the collected URLs are filtered to the
request URL's domain and de-duplicated before being returned. -/
def sitemap_final_urls (baseUrl : String) (allUrls : List String) : List String :=
  (allUrls.filter (fun u => netlocOf u = netlocOf baseUrl)).dedup

/-- Content record as assembled by the handlers and consumed by
`process_message`. -/
structure ContentRecord where
  url : String
  title : String
  path : String
  content : String
  links : List String
  metadata : List (String × JValue)

/-- Root-URL test of `handle_web_task`: sitemap discovery only runs
when the request URL path is empty or `/`. -/
def isRootUrl (url : String) : Bool :=
  urlPathOf url = "" || urlPathOf url = "/"

/-- Embedding of the success path of `handle_web_task` for one crawl
result: extract metadata, merge sitemap URLs for root URLs
(`sitemapRaw = none` models a sitemap failure, swallowed), and build
the single content record.  `sitemapRaw` carries the URLs collected by
the resolver before its final domain filter. -/
def handle_web_links (url : String) (r : CrawlResult)
    (sitemapRaw : Option (List String)) : List String :=
  let meta := extract_web_metadata r url
  if isRootUrl url then
    match sitemapRaw with
    | some raw =>
      let sm := sitemap_final_urls url raw
      if !sm.isEmpty then meta.links ++ sm.filter (fun u => !meta.links.contains u)
      else meta.links
    | none => meta.links
  else meta.links

/-- The single content record returned by the success path of
`handle_web_task`. -/
def handle_web_record (url : String) (r : CrawlResult)
    (sitemapRaw : Option (List String)) : ContentRecord :=
  let meta := extract_web_metadata r url
  { url := r.url
    title := meta.title
    path := meta.path
    content := embeddingContentOf r.markdown
    links := handle_web_links url r sitemapRaw
    metadata := [] }

/-! ### LLM content-filter circuit breaker (`handlers/web.py`)

Monotonic time is modelled as a natural number of seconds; the state
is the pair of module globals `_llm_consecutive_failures` and
`_llm_circuit_open_until`. -/

def LLM_CIRCUIT_THRESHOLD : Nat := 3

def LLM_CIRCUIT_COOLDOWN_S : Nat := 300

/-- State of the process-wide LLM circuit breaker. -/
structure LlmCircuit where
  consecutiveFailures : Nat
  openUntil : Nat
deriving DecidableEq, Repr

/-- Embedding of `_is_llm_circuit_open`. -/
def isLlmCircuitOpen (now : Nat) (st : LlmCircuit) : Bool :=
  now < st.openUntil

/-- Embedding of `_record_llm_failure`. -/
def recordLlmFailure (now : Nat) (st : LlmCircuit) : LlmCircuit :=
  let f := st.consecutiveFailures + 1
  { consecutiveFailures := f
    openUntil :=
      if f ≥ LLM_CIRCUIT_THRESHOLD then now + LLM_CIRCUIT_COOLDOWN_S
      else st.openUntil }

/-- Embedding of `_record_llm_success`. -/
def recordLlmSuccess : LlmCircuit := ⟨0, 0⟩

/-- The LLM-bypass test of `handle_web_task`: `.txt` and `llms.txt`
URLs skip the LLM filter. -/
def isTextFileUrl (url : String) : Bool :=
  strEnds url ".txt" || strEnds url "llms.txt"

/-- Markdown generator configured for a crawl. -/
inductive MdGenerator where
  | dflt
  | llmFiltered (token : String)
deriving DecidableEq, Repr

/-- Embedding of the generator selection in `handle_web_task`: bypass
the LLM filter for text-file URLs and while the circuit is open. -/
def chooseGenerator (url : String) (token : String) (now : Nat)
    (st : LlmCircuit) : MdGenerator :=
  if isTextFileUrl url then .dflt
  else if isLlmCircuitOpen now st then .dflt
  else .llmFiltered token

/-- Blank test the breaker applies to `fit_markdown` after a
successful attempt: `not md.fit_markdown or not md.fit_markdown.strip()`. -/
def fitBlank : Option String → Bool
  | none => true
  | some s => s == "" || strStrip s == ""

/-- Whether the post-success inspection counts as an LLM filter
failure: requires the v0.5+ markdown object (`hasattr fit_markdown`)
with a blank `fit_markdown`. -/
def llmFilterFailed : MarkdownVal → Bool
  | .mdObj _ fit => fitBlank fit
  | .mdStr _ => false

/-- Embedding of the circuit-breaker update after a successful crawl
attempt in `handle_web_task`: only when the call could have used the
LLM (`use_llm`, i.e. not a text-file URL) and the circuit is not open
is a failure or success recorded. -/
def updateCircuitAfterSuccess (useLlm : Bool) (now : Nat) (st : LlmCircuit)
    (md : MarkdownVal) : LlmCircuit :=
  if useLlm && !isLlmCircuitOpen now st then
    if llmFilterFailed md then recordLlmFailure now st else recordLlmSuccess
  else st

/-! ### Crawl retry loop (`handle_web_task`)

One attempt is `_crawl_single_page` under `asyncio.wait_for`; the
oracle gives the outcome of each attempt, indexed by the 1-based
attempt number.  Backoff sleeps are recorded in seconds; the source's
`CRAWL_INITIAL_BACKOFF_S = 2.0` is exactly the natural number 2. -/

def CRAWL_MAX_RETRIES : Nat := 2

def CRAWL_INITIAL_BACKOFF_S : Nat := 2

/-- Outcome of one crawl attempt as seen by the retry loop of
`handle_web_task`. -/
inductive AttemptOutcome where
  | ok (result : CrawlResult)
  | timeoutExpiry
  | raisedError (msg : String)
  | exn (msg : String)

/-- Timeout message raised when the outer deadline expires. -/
def crawlTimeoutMsg (pageTimeoutMs : Nat) : String :=
  "Crawl timed out after " ++ toString pageTimeoutMs ++ "ms"

/-- Error (or result) an attempt contributes: a deadline expiry maps
to `ERR_CRAWL_TIMEOUT`; a failed crawl result and an unexpected
exception are both run through `_classify_crawl_error`. -/
def attemptResult (pageTimeoutMs : Nat) : AttemptOutcome →
    Except IngestionError CrawlResult
  | .ok r => .ok r
  | .timeoutExpiry => .error ⟨ERR_CRAWL_TIMEOUT, crawlTimeoutMsg pageTimeoutMs⟩
  | .raisedError m => .error (classifyCrawlError m)
  | .exn m => .error (classifyCrawlError m)

/-- Trace of the retry loop: how many attempts ran, which backoff
sleeps happened (in order, in seconds), and the final outcome. -/
structure CrawlTrace where
  attemptsMade : Nat
  sleeps : List Nat
  outcome : Except IngestionError CrawlResult

/-- One unrolling of the `for attempt in range(1, CRAWL_MAX_RETRIES + 2)`
loop: `attempt` is the 1-based attempt number, `remaining` the number
of attempts the range still allows (loop entry: 3). -/
def crawlLoopGo (pageTimeoutMs : Nat) (oracle : Nat → AttemptOutcome)
    (attempt : Nat) : Nat → CrawlTrace
  | 0 => ⟨0, [], .error ⟨ERR_CRAWL_TIMEOUT, ""⟩⟩
  | r + 1 =>
    match attemptResult pageTimeoutMs (oracle attempt) with
    | .ok res => ⟨1, [], .ok res⟩
    | .error err =>
      if err.code ∈ TRANSIENT_ERRORS then
        if r = 0 then ⟨1, [], .error err⟩
        else
          let rest := crawlLoopGo pageTimeoutMs oracle (attempt + 1) r
          ⟨rest.attemptsMade + 1,
            CRAWL_INITIAL_BACKOFF_S * 2 ^ (attempt - 1) :: rest.sleeps,
            rest.outcome⟩
      else ⟨1, [], .error err⟩

/-- The whole retry loop of `handle_web_task`: up to
`CRAWL_MAX_RETRIES + 1` attempts starting at attempt 1. -/
def handleWebCrawlLoop (pageTimeoutMs : Nat) (oracle : Nat → AttemptOutcome) :
    CrawlTrace :=
  crawlLoopGo pageTimeoutMs oracle 1 (CRAWL_MAX_RETRIES + 1)

/-! ### Sitemap resolver (`handlers/sitemap.py`)

HTTP fetching and XML parsing are external; the oracle maps each
sitemap URL to what `_resolve_sitemap` sees after fetching and
parsing it.  `unavailable` covers every bail-out before dispatch on
the root element: fetch exception, non-200 status, blank body, parse
error, and an unknown root element. -/

def MAX_SITEMAP_INDEX_DEPTH : Nat := 3

/-- Parsed shape of one fetched sitemap document. -/
inductive SitemapDoc where
  | unavailable
  | urlset (locs : List String)
  | index (children : List String)

/-- Embedding of `_extract_urls_from_urlset`: keep the non-blank
stripped `loc` texts whose netloc equals the base domain,
de-duplicated. -/
def urlsFromUrlset (baseDomain : String) (locs : List String) : List String :=
  (locs.filterMap (fun l =>
    if strStrip l ≠ "" ∧ netlocOf (strStrip l) = baseDomain then some (strStrip l)
    else none)).dedup

/-- Recursion core of `_resolve_sitemap`, driven by the fuel
`MAX_SITEMAP_INDEX_DEPTH + 1 - depth`; returns the collected page
URLs together with the list of sitemap URLs actually fetched. -/
def resolveSitemapGo (oracle : String → SitemapDoc) (baseDomain : String) :
    Nat → String → List String × List String
  | 0, _ => ([], [])
  | fuel + 1, url =>
    match oracle url with
    | .unavailable => ([], [url])
    | .urlset locs => (urlsFromUrlset baseDomain locs, [url])
    | .index children =>
      let sub := children.map (resolveSitemapGo oracle baseDomain fuel)
      ((sub.map Prod.fst).flatten, url :: (sub.map Prod.snd).flatten)

/-- Embedding of `_resolve_sitemap oracle baseDomain url depth`: the
depth guard `depth > MAX_SITEMAP_INDEX_DEPTH → []` becomes fuel
exhaustion, and each sitemap-index child is resolved at `depth + 1`. -/
def resolve_sitemap (oracle : String → SitemapDoc) (baseDomain : String)
    (url : String) (depth : Nat) : List String × List String :=
  resolveSitemapGo oracle baseDomain (MAX_SITEMAP_INDEX_DEPTH + 1 - depth) url

/-! ### File handler (`handlers/file.py`) -/

def MAX_FILE_SIZE_BYTES : Nat := 200 * 1024 * 1024

/-- What the worker observes about the path via `os.path.isfile` and
`os.path.getsize`. -/
structure FileStat where
  isRegularFile : Bool
  size : Nat

/-- Outcome of the pool-submitted `process_file_sync` call, at the
interface `handle_file_task` consumes. -/
inductive PoolOutcome where
  | ok (content : String) (metadata : List (String × JValue))
  | timeoutOrExpired
  | exn (msg : String)

/-- Failure surface of `handle_file_task`: either a classified
`IngestionError` or an unclassified exception re-raised as-is. -/
inductive FileFailure where
  | ingestion (e : IngestionError)
  | unclassified (msg : String)
deriving DecidableEq, Repr

/-- Embedding of `handle_file_task`: pre-flight validation, then the
pool submission and the mapping of raw failures onto the taxonomy.
The returned flag records whether anything was submitted to the
process pool. -/
def handle_file_task (path : String) (st : FileStat) (pool : PoolOutcome) :
    Bool × Except FileFailure (List ContentRecord) :=
  if !st.isRegularFile then
    (false, .error (.ingestion ⟨ERR_INVALID_FORMAT, "File not found: " ++ path⟩))
  else if st.size = 0 then
    (false, .error (.ingestion ⟨ERR_EMPTY, "File is empty (0 bytes)"⟩))
  else if st.size > MAX_FILE_SIZE_BYTES then
    (false, .error (.ingestion ⟨ERR_INVALID_FORMAT,
      "File too large: " ++ toString st.size ++ " bytes (limit: " ++
        toString MAX_FILE_SIZE_BYTES ++ ")"⟩))
  else
    match pool with
    | .ok content metadata =>
      if strStrip content = "" then
        (true, .error (.ingestion ⟨ERR_EMPTY, "File contains no text"⟩))
      else
        (true, .ok [{ url := path
                      title := (match jGetD metadata "title" (.str "") with
                                | .str s => s
                                | _ => "")
                      path := path
                      content := content
                      links := []
                      metadata := metadata }])
    | .timeoutOrExpired =>
      (true, .error (.ingestion ⟨ERR_TIMEOUT,
        "Processing timed out and worker process was terminated"⟩))
    | .exn msg =>
      let low := strLower msg
      if strContains low "timeout" then
        (true, .error (.ingestion ⟨ERR_TIMEOUT, "Processing timed out"⟩))
      else if strContains low "password" || strContains low "encrypted" then
        (true, .error (.ingestion ⟨ERR_ENCRYPTED, "File is password protected"⟩))
      else if strContains low "format" then
        (true, .error (.ingestion ⟨ERR_INVALID_FORMAT, "Invalid file format"⟩))
      else (true, .error (.unclassified msg))

/-! ### Message loop (`main.py`, `process_message`)

The broker message is its decoded JSON body plus the 1-based attempt
counter; the dispatch to the handlers is abstracted by the outcome the
dispatched call produced.  The trace records the published payloads in
order, the number of `finish` calls and the `requeue` calls (delay in
milliseconds, backoff flag).  The keep-alive task and the concurrency
semaphore do not affect these effects and are not modelled; the decode
step is assumed to have succeeded and the producer to be connected. -/

/-- Retry-relevant configuration (`config.py` `Settings`). -/
structure Settings where
  retry_max_attempts : Nat
  retry_initial_delay_ms : Nat
  retry_max_delay_ms : Nat
  retry_backoff_multiplier : Nat
deriving DecidableEq, Repr

/-- Defaults from `config.py`. -/
def defaultSettings : Settings :=
  { retry_max_attempts := 3
    retry_initial_delay_ms := 1000
    retry_max_delay_ms := 60000
    retry_backoff_multiplier := 2 }

/-- A published result payload: a JSON object in field order. -/
abbrev Payload := List (String × JValue)

/-- What the dispatched handler call did, as observed by the
`try`/`except` structure of `process_message`. -/
inductive HandlerOutcome where
  | ok (results : List ContentRecord)
  | errIngestion (e : IngestionError)
  | cancelled
  | errTimeout (msg : String)
  | errOther (msg : String)

/-- Effect trace of one `process_message` invocation. -/
structure MsgEffects where
  published : List Payload
  finishCount : Nat
  requeues : List (Nat × Bool)
  messageReceivedData : List (String × JValue)

/-- Embedding of `_is_transient_error` restricted to the generic
exception branch (the `IngestionError` and `asyncio.TimeoutError`
branches are separate constructors of `HandlerOutcome`). -/
def isTransientMessage (msg : String) : Bool :=
  ["TIMEOUT", "TIMED_OUT", "CONNECTION", "ERR_NAME_NOT_RESOLVED",
    "ECONNREFUSED"].any (fun kw => strContains (strUpper msg) kw)

/-- Backoff delay computed by `process_message`:
`min(retry_initial_delay_ms * retry_backoff_multiplier ** (attempts - 1), retry_max_delay_ms)`. -/
def retryDelayMs (cfg : Settings) (attempts : Nat) : Nat :=
  min (cfg.retry_initial_delay_ms * cfg.retry_backoff_multiplier ^ (attempts - 1))
    cfg.retry_max_delay_ms

/-- Redaction applied before the `message_received` log record:
`{k: v for k, v in data.items() if k != "gemini_api_key"}`. -/
def safeData (data : List (String × JValue)) : List (String × JValue) :=
  data.filter (fun kv => kv.1 ≠ "gemini_api_key")

/-- Success payload for one content record (`process_message`). -/
def successPayload (data : List (String × JValue)) (res : ContentRecord) : Payload :=
  let sid := jGetD data "id" (.str "unknown")
  [("source_id", sid),
   ("correlation_id", sid),
   ("content", .str res.content),
   ("metadata", .obj res.metadata),
   ("title", .str res.title),
   ("url", .str res.url),
   ("path", .str res.path),
   ("status", .str "success"),
   ("links", .arr (res.links.map .str)),
   ("depth", jGetD data "depth" (.num 0))]

/-- Failure payload when the handler returned no records. -/
def noContentPayload (data : List (String × JValue)) : Payload :=
  let sid := jGetD data "id" (.str "unknown")
  [("source_id", sid),
   ("correlation_id", sid),
   ("status", .str "failed"),
   ("error", .str "No content extracted"),
   ("url", jGetD data "url" (.str "")),
   ("content", .str "")]

/-- Failure payload for a terminal `IngestionError`. -/
def ingestionFailPayload (data : List (String × JValue)) (e : IngestionError) : Payload :=
  let sid := jGetD data "id" (.str "unknown")
  [("source_id", sid),
   ("correlation_id", sid),
   ("status", .str "failed"),
   ("code", .str e.code),
   ("error", .str ("[" ++ e.code ++ "] " ++ e.message)),
   ("url", jOr (jGetD data "url" (.str "")) (jGetD data "path" (.str ""))),
   ("original_payload", .obj data)]

/-- Failure payload for a terminal generic exception. -/
def genericFailPayload (data : List (String × JValue)) (msg : String) : Payload :=
  let sid := jGetD data "id" (.str "unknown")
  [("source_id", sid),
   ("correlation_id", sid),
   ("status", .str "failed"),
   ("error", .str msg),
   ("url", jGetD data "url" (.str "")),
   ("content", .str ""),
   ("original_payload", .obj data)]

/-- Embedding of `process_message` after a successful JSON decode:
publish/finish/requeue behavior as a function of the decoded task, the
broker attempt counter and the handler outcome. -/
def process_message (cfg : Settings) (data : List (String × JValue))
    (attempts : Nat) (outcome : HandlerOutcome) : MsgEffects :=
  let log := safeData data
  match outcome with
  | .ok results =>
    if !results.isEmpty then
      { published := results.map (successPayload data)
        finishCount := 1
        requeues := []
        messageReceivedData := log }
    else
      { published := [noContentPayload data]
        finishCount := 1
        requeues := []
        messageReceivedData := log }
  | .errIngestion e =>
    if e.code ∈ TRANSIENT_ERRORS ∧ attempts ≤ cfg.retry_max_attempts then
      { published := []
        finishCount := 0
        requeues := [(retryDelayMs cfg attempts, true)]
        messageReceivedData := log }
    else
      { published := [ingestionFailPayload data e]
        finishCount := 1
        requeues := []
        messageReceivedData := log }
  | .cancelled =>
    { published := [], finishCount := 0, requeues := [], messageReceivedData := log }
  | .errTimeout msg =>
    if attempts ≤ cfg.retry_max_attempts then
      { published := []
        finishCount := 0
        requeues := [(retryDelayMs cfg attempts, true)]
        messageReceivedData := log }
    else
      { published := [genericFailPayload data msg]
        finishCount := 1
        requeues := []
        messageReceivedData := log }
  | .errOther msg =>
    if isTransientMessage msg ∧ attempts ≤ cfg.retry_max_attempts then
      { published := []
        finishCount := 0
        requeues := [(retryDelayMs cfg attempts, true)]
        messageReceivedData := log }
    else
      { published := [genericFailPayload data msg]
        finishCount := 1
        requeues := []
        messageReceivedData := log }

/-- Handler dispatch of `process_message`: an unknown task type leaves
`results_list` empty without raising. -/
def dispatchOutcome (taskType : String) (webOutcome fileOutcome : HandlerOutcome) :
    HandlerOutcome :=
  if taskType = "web" then webOutcome
  else if taskType = "file" then fileOutcome
  else .ok []

/-! ## Claim theorems -/

/-- C5: for every raw error-message string, `_classify_crawl_error`
inspects the upper-cased string in the spec's priority order —
timeouts, then DNS, then connection errors, then robots/blocked, with
`CRAWL_TIMEOUT` as the default — which is captured by agreement with
the spec-side `classifySpecKind`. -/
theorem classify_crawl_error_spec (s : String) :
    (classifyCrawlError s).code = classifySpecKind s := by
  simp only [classifyCrawlError, classifySpecKind]
  repeat' split
  all_goals rfl

/-- Helper: the classifier only ever produces the four crawl codes. -/
theorem classify_code_cases (s : String) :
    (classifyCrawlError s).code = ERR_CRAWL_TIMEOUT ∨
    (classifyCrawlError s).code = ERR_CRAWL_DNS ∨
    (classifyCrawlError s).code = ERR_CRAWL_REFUSED ∨
    (classifyCrawlError s).code = ERR_CRAWL_BLOCKED := by
  simp only [classifyCrawlError]
  repeat' split
  all_goals simp

/-- C6 counterexample: the round trip fails for `CRAWL_REFUSED`.
Classifying `"ECONNREFUSED"` yields the kind `ERR_CRAWL_REFUSED`, but
classifying that kind's string name yields `ERR_CRAWL_TIMEOUT` (the
name contains none of the connection keywords, so the safe-retry
default fires). -/
theorem classify_roundtrip_refused_counterexample :
    (classifyCrawlError "ECONNREFUSED").code = ERR_CRAWL_REFUSED ∧
    (classifyCrawlError (classifyCrawlError "ECONNREFUSED").code).code ≠
      (classifyCrawlError "ECONNREFUSED").code := by
  constructor
  · decide
  · decide

/-- C6 (amended): classifying a raw message, formatting its kind as
its string name, and classifying again preserves the kind for
`CRAWL_TIMEOUT`, `CRAWL_DNS` and `CRAWL_BLOCKED`; the remaining
producible kind, `CRAWL_REFUSED`, reclassifies to `CRAWL_TIMEOUT`. -/
theorem classify_roundtrip_amended (s : String)
    (h : (classifyCrawlError s).code ≠ ERR_CRAWL_REFUSED) :
    (classifyCrawlError (classifyCrawlError s).code).code =
      (classifyCrawlError s).code := by
  rcases classify_code_cases s with h1 | h1 | h1 | h1
  · rw [h1]; decide
  · rw [h1]; decide
  · exact absurd h1 h
  · rw [h1]; decide

/-- C6 witness: the amended round trip at the concrete message
`"DNS lookup failed"`. -/
theorem classify_roundtrip_amended_witness :
    (classifyCrawlError "DNS lookup failed").code ≠ ERR_CRAWL_REFUSED ∧
    (classifyCrawlError (classifyCrawlError "DNS lookup failed").code).code =
      (classifyCrawlError "DNS lookup failed").code :=
  ⟨by decide, classify_roundtrip_amended "DNS lookup failed" (by decide)⟩

/-- C1: a raised `IngestionError` with transient kind and
`attempts ≤ retry_max_attempts` publishes nothing, does not finish,
and requeues exactly once with
`delay = min(retry_initial_delay_ms * retry_backoff_multiplier ^ (attempts - 1), retry_max_delay_ms)`
and `backoff = true`. -/
theorem process_message_transient_requeue (cfg : Settings)
    (data : List (String × JValue)) (attempts : Nat) (e : IngestionError)
    (htr : e.code ∈ TRANSIENT_ERRORS) (hatt : attempts ≤ cfg.retry_max_attempts) :
    process_message cfg data attempts (.errIngestion e) =
      { published := []
        finishCount := 0
        requeues := [(min
          (cfg.retry_initial_delay_ms * cfg.retry_backoff_multiplier ^ (attempts - 1))
          cfg.retry_max_delay_ms, true)]
        messageReceivedData := safeData data } := by
  simp only [process_message]
  rw [if_pos ⟨htr, hatt⟩]
  rfl

/-- C1 witness: first delivery of a web task failing with
`ERR_CRAWL_TIMEOUT` under the default configuration requeues once
with a 1000 ms delay. -/
theorem process_message_transient_requeue_witness :
    (IngestionError.mk ERR_CRAWL_TIMEOUT "net::ERR_TIMED_OUT").code ∈ TRANSIENT_ERRORS ∧
    1 ≤ defaultSettings.retry_max_attempts ∧
    process_message defaultSettings [("id", .str "t1")] 1
        (.errIngestion ⟨ERR_CRAWL_TIMEOUT, "net::ERR_TIMED_OUT"⟩) =
      { published := []
        finishCount := 0
        requeues := [(min
          (defaultSettings.retry_initial_delay_ms *
            defaultSettings.retry_backoff_multiplier ^ (1 - 1))
          defaultSettings.retry_max_delay_ms, true)]
        messageReceivedData := safeData [("id", .str "t1")] } :=
  ⟨by decide, by decide,
    process_message_transient_requeue defaultSettings [("id", .str "t1")] 1
      ⟨ERR_CRAWL_TIMEOUT, "net::ERR_TIMED_OUT"⟩ (by decide) (by decide)⟩

/-- C10: when the dispatch returns an empty result list without
raising (in particular for an unknown task type), exactly one failure
payload is published, with `status = "failed"`,
`error = "No content extracted"`, no `code` field and no
`original_payload` field, and `finish` is called. -/
theorem process_message_no_content (cfg : Settings)
    (data : List (String × JValue)) (attempts : Nat) (t : String)
    (w f : HandlerOutcome) (hw : t ≠ "web") (hf : t ≠ "file") :
    process_message cfg data attempts (dispatchOutcome t w f) =
      { published := [noContentPayload data]
        finishCount := 1
        requeues := []
        messageReceivedData := safeData data } ∧
    (noContentPayload data).map Prod.fst =
      ["source_id", "correlation_id", "status", "error", "url", "content"] ∧
    jGetD (noContentPayload data) "status" .null = .str "failed" ∧
    jGetD (noContentPayload data) "error" .null = .str "No content extracted" := by
  refine ⟨?_, rfl, rfl, rfl⟩
  simp only [dispatchOutcome, if_neg hw, if_neg hf, process_message]
  rfl

/-- C10 witness: concrete unknown task type `"audio"`. -/
theorem process_message_no_content_witness :
    process_message defaultSettings [("id", .str "t9"), ("type", .str "audio")] 1
        (dispatchOutcome "audio" (.ok []) (.ok [])) =
      { published := [noContentPayload [("id", .str "t9"), ("type", .str "audio")]]
        finishCount := 1
        requeues := []
        messageReceivedData := safeData [("id", .str "t9"), ("type", .str "audio")] } ∧
    (noContentPayload [("id", .str "t9"), ("type", .str "audio")]).map Prod.fst =
      ["source_id", "correlation_id", "status", "error", "url", "content"] ∧
    jGetD (noContentPayload [("id", .str "t9"), ("type", .str "audio")]) "status" .null =
      .str "failed" ∧
    jGetD (noContentPayload [("id", .str "t9"), ("type", .str "audio")]) "error" .null =
      .str "No content extracted" :=
  process_message_no_content defaultSettings [("id", .str "t9"), ("type", .str "audio")]
    1 "audio" (.ok []) (.ok []) (by decide) (by decide)

/-- C7: pre-flight validation of `handle_file_task`: a missing or
irregular path raises `INVALID_FORMAT` ("not found"), an empty file
raises `EMPTY`, an over-200-MiB file raises `INVALID_FORMAT`
("too large"); in each case nothing is submitted to the process pool
(flag `false`) and no content record is returned. -/
theorem handle_file_task_preflight (path : String) (st : FileStat)
    (pool : PoolOutcome) :
    (st.isRegularFile = false →
      handle_file_task path st pool =
        (false, .error (.ingestion ⟨ERR_INVALID_FORMAT, "File not found: " ++ path⟩))) ∧
    (st.isRegularFile = true → st.size = 0 →
      handle_file_task path st pool =
        (false, .error (.ingestion ⟨ERR_EMPTY, "File is empty (0 bytes)"⟩))) ∧
    (st.isRegularFile = true → st.size > MAX_FILE_SIZE_BYTES →
      handle_file_task path st pool =
        (false, .error (.ingestion ⟨ERR_INVALID_FORMAT,
          "File too large: " ++ toString st.size ++ " bytes (limit: " ++
            toString MAX_FILE_SIZE_BYTES ++ ")"⟩))) := by
  refine ⟨?_, ?_, ?_⟩
  · intro h
    simp [handle_file_task, h]
  · intro h hz
    simp [handle_file_task, h, hz]
  · intro h h700
    have hz : st.size ≠ 0 := by
      intro h0
      rw [h0] at h700
      exact absurd h700 (by decide)
    simp [handle_file_task, h, hz, Nat.not_lt.mpr (Nat.le_of_lt h700)]
    omega

/-- C7 witness: a 300 MiB regular file is rejected as too large with
nothing submitted to the pool. -/
theorem handle_file_task_preflight_witness :
    FileStat.isRegularFile ⟨true, 314572800⟩ = true ∧
    FileStat.size ⟨true, 314572800⟩ > MAX_FILE_SIZE_BYTES ∧
    handle_file_task "/data/big.pdf" ⟨true, 314572800⟩ .timeoutOrExpired =
      (false, .error (.ingestion ⟨ERR_INVALID_FORMAT,
        "File too large: " ++ toString 314572800 ++ " bytes (limit: " ++
          toString MAX_FILE_SIZE_BYTES ++ ")"⟩)) :=
  ⟨rfl, by decide,
    (handle_file_task_preflight "/data/big.pdf" ⟨true, 314572800⟩
        .timeoutOrExpired).2.2 rfl (by decide)⟩

/-- Helper: within the retry loop, at least one and at most
`remaining` attempts run, and the backoff sleeps are exactly
`CRAWL_INITIAL_BACKOFF_S * 2 ^ (attempt - 1)` for the non-final
attempts that failed transiently. -/
theorem crawlLoopGo_spec (pt : Nat) (oracle : Nat → AttemptOutcome) :
    ∀ (r attempt : Nat), 1 ≤ r → 1 ≤ attempt →
    1 ≤ (crawlLoopGo pt oracle attempt r).attemptsMade ∧
    (crawlLoopGo pt oracle attempt r).attemptsMade ≤ r ∧
    (crawlLoopGo pt oracle attempt r).sleeps =
      (List.range ((crawlLoopGo pt oracle attempt r).attemptsMade - 1)).map
        (fun k => CRAWL_INITIAL_BACKOFF_S * 2 ^ (attempt - 1 + k)) := by
  intro r
  induction r with
  | zero => intro attempt h1; exact absurd h1 (by decide)
  | succ r' ih =>
    intro attempt _ hatt
    rw [crawlLoopGo]
    split
    · simp
    · split
      · split
        · simp
        · rename_i err htrans hr0
          have hr1 : 1 ≤ r' := Nat.one_le_iff_ne_zero.mpr hr0
          obtain ⟨ih1, ih2, ih3⟩ := ih (attempt + 1) hr1 (by omega)
          refine ⟨by simp, by simp; omega, ?_⟩
          simp only []
          obtain ⟨m, hm⟩ : ∃ m, (crawlLoopGo pt oracle (attempt + 1) r').attemptsMade
              = m + 1 := ⟨_, (Nat.succ_pred_eq_of_pos ih1).symm⟩
          rw [ih3, hm]
          simp only [Nat.add_sub_cancel, List.range_succ_eq_map, List.map_cons,
            List.map_map]
          refine List.cons_eq_cons.mpr ⟨by simp, ?_⟩
          apply List.map_congr_left
          intro k _
          simp only [Function.comp]
          have hexp : attempt - 1 + Nat.succ k = attempt + k := by omega
          rw [hexp]
      · simp

/-- Helper: if the attempts before attempt `k` all failed transiently
and attempt `k` itself fails with a non-transient error, the loop
stops at attempt `k` with exactly the sleeps that preceded attempt `k`
and that error as its outcome — a permanent error is re-raised
immediately, at whatever attempt it occurs. -/
theorem crawlLoopGo_permanent (pt : Nat) (oracle : Nat → AttemptOutcome) :
    ∀ (r attempt k : Nat), 1 ≤ r → 1 ≤ attempt → attempt ≤ k →
    k + 1 ≤ attempt + r →
    (∀ j, attempt ≤ j → j < k → ∃ e', attemptResult pt (oracle j) = .error e' ∧
      e'.code ∈ TRANSIENT_ERRORS) →
    ∀ e, attemptResult pt (oracle k) = .error e → e.code ∉ TRANSIENT_ERRORS →
    crawlLoopGo pt oracle attempt r =
      ⟨k - attempt + 1,
        (List.range (k - attempt)).map
          (fun i => CRAWL_INITIAL_BACKOFF_S * 2 ^ (attempt - 1 + i)),
        Except.error e⟩ := by
  intro r
  induction r with
  | zero =>
    intro attempt k h1
    exact absurd h1 (by decide)
  | succ r' ih =>
    intro attempt k _ hatt hak hkr hprev e hke hperm
    rcases Nat.eq_or_lt_of_le hak with heq | hlt
    · subst heq
      rw [crawlLoopGo]
      simp only [hke]
      rw [if_neg hperm]
      simp
    · obtain ⟨e', hje', htre'⟩ := hprev attempt (Nat.le_refl _) hlt
      have hr' : ¬ r' = 0 := by omega
      rw [crawlLoopGo]
      simp only [hje']
      rw [if_pos htre', if_neg hr']
      rw [ih (attempt + 1) k (by omega) (by omega) (by omega) (by omega)
        (fun j hj1 hj2 => hprev j (by omega) hj2) e hke hperm]
      obtain ⟨m, hm⟩ : ∃ m, k - attempt = m + 1 := ⟨k - attempt - 1, by omega⟩
      have hm2 : k - (attempt + 1) = m := by omega
      simp only [CrawlTrace.mk.injEq]
      refine ⟨by omega, ?_, trivial⟩
      rw [hm2, hm, List.range_succ_eq_map, List.map_cons, List.map_map]
      refine List.cons_eq_cons.mpr ⟨by simp, ?_⟩
      apply List.map_congr_left
      intro i _
      simp only [Function.comp, Nat.add_sub_cancel]
      have hexp : attempt - 1 + Nat.succ i = attempt + i := by omega
      rw [hexp]

/-- C4: the retry loop of `handle_web_task` runs at most
`CRAWL_MAX_RETRIES + 1 = 3` crawl attempts; after each non-final
transient failure it sleeps `CRAWL_INITIAL_BACKOFF_S * 2 ^ (attempt - 1)`
seconds (2 s then 4 s); an expiry of the outer deadline contributes an
`ERR_CRAWL_TIMEOUT` error; and an error whose kind is not transient, on
whatever attempt `k` it occurs (the earlier attempts having failed
transiently so that attempt `k` is reached), ends the loop immediately
with that error: exactly `k` attempts, no sleep after the error, and
the error as the outcome. -/
theorem handle_web_retry_policy (pt : Nat) (oracle : Nat → AttemptOutcome) :
    (1 ≤ (handleWebCrawlLoop pt oracle).attemptsMade ∧
      (handleWebCrawlLoop pt oracle).attemptsMade ≤ CRAWL_MAX_RETRIES + 1) ∧
    (handleWebCrawlLoop pt oracle).sleeps =
      (List.range ((handleWebCrawlLoop pt oracle).attemptsMade - 1)).map
        (fun k => CRAWL_INITIAL_BACKOFF_S * 2 ^ k) ∧
    attemptResult pt .timeoutExpiry =
      .error ⟨ERR_CRAWL_TIMEOUT, crawlTimeoutMsg pt⟩ ∧
    (∀ (k : Nat) (e : IngestionError), 1 ≤ k → k ≤ CRAWL_MAX_RETRIES + 1 →
      (∀ j, 1 ≤ j → j < k → ∃ e', attemptResult pt (oracle j) = .error e' ∧
        e'.code ∈ TRANSIENT_ERRORS) →
      attemptResult pt (oracle k) = .error e → e.code ∉ TRANSIENT_ERRORS →
      handleWebCrawlLoop pt oracle =
        ⟨k, (List.range (k - 1)).map (fun i => CRAWL_INITIAL_BACKOFF_S * 2 ^ i),
          Except.error e⟩) := by
  obtain ⟨h1, h2, h3⟩ := crawlLoopGo_spec pt oracle (CRAWL_MAX_RETRIES + 1) 1
    (by decide) (by decide)
  refine ⟨⟨h1, h2⟩, ?_, rfl, ?_⟩
  · rw [handleWebCrawlLoop, h3]
    apply List.map_congr_left
    intro k _
    norm_num
  · intro k e hk1 hk3 hprev hke hperm
    have hkr : k + 1 ≤ 1 + (CRAWL_MAX_RETRIES + 1) := by
      simp only [CRAWL_MAX_RETRIES] at hk3 ⊢
      omega
    rw [handleWebCrawlLoop,
      crawlLoopGo_permanent pt oracle (CRAWL_MAX_RETRIES + 1) 1 k (by decide)
        (by decide) hk1 hkr hprev e hke hperm]
    simp only [CrawlTrace.mk.injEq]
    refine ⟨by omega, ?_, trivial⟩
    apply List.map_congr_left
    intro i _
    norm_num

/-- C4 witness: transient timeout on attempt 1, then a robots.txt
block (a permanent `CRAWL_BLOCKED` error) on attempt 2: the loop stops
after exactly two attempts, with the single 2-second backoff sleep of
attempt 1 and the permanent error as its outcome. -/
theorem handle_web_retry_policy_witness :
    attemptResult 120000
        ((fun n => if n = 1 then AttemptOutcome.raisedError "net::ERR_TIMED_OUT"
          else AttemptOutcome.raisedError "blocked by robots.txt") 2) =
      .error (classifyCrawlError "blocked by robots.txt") ∧
    (classifyCrawlError "blocked by robots.txt").code ∉ TRANSIENT_ERRORS ∧
    handleWebCrawlLoop 120000
        (fun n => if n = 1 then .raisedError "net::ERR_TIMED_OUT"
          else .raisedError "blocked by robots.txt") =
      ⟨2, (List.range (2 - 1)).map (fun i => CRAWL_INITIAL_BACKOFF_S * 2 ^ i),
        Except.error (classifyCrawlError "blocked by robots.txt")⟩ := by
  refine ⟨rfl, by decide, ?_⟩
  exact (handle_web_retry_policy 120000
      (fun n => if n = 1 then .raisedError "net::ERR_TIMED_OUT"
        else .raisedError "blocked by robots.txt")).2.2.2 2
    (classifyCrawlError "blocked by robots.txt") (by decide) (by decide)
    (fun j hj1 hj2 => ⟨classifyCrawlError "net::ERR_TIMED_OUT", by
      have hj : j = 1 := by omega
      subst hj
      rfl, by decide⟩)
    rfl (by decide)

/-- Helper: every link produced by `extract_web_metadata` is either an
absorbed internal href (kept unfiltered) or passed the same-netloc
filter applied to markdown-extracted links. -/
theorem extract_web_metadata_links_cases (r : CrawlResult) (url : String) :
    ∀ x ∈ (extract_web_metadata r url).links,
      x ∈ internalHrefsOf r ∨ netlocOf x = netlocOf url := by
  intro x hx
  simp only [extract_web_metadata] at hx
  rw [List.mem_dedup] at hx
  rcases List.mem_append.mp hx with h | h
  · exact Or.inl h
  · right
    rcases List.mem_filterMap.mp h with ⟨link, _, hlink⟩
    by_cases hc : netlocOf (urljoinModel url link) = netlocOf url
    · rw [if_pos hc] at hlink
      cases hlink
      exact hc
    · rw [if_neg hc] at hlink
      cases hlink

/-- Helper: the sitemap resolver's final stage only returns URLs whose
netloc equals the request URL's netloc. -/
theorem sitemap_final_urls_same_host (url : String) (raw : List String) :
    ∀ x ∈ sitemap_final_urls url raw, netlocOf x = netlocOf url := by
  intro x hx
  simp only [sitemap_final_urls] at hx
  rw [List.mem_dedup] at hx
  have := (List.mem_filter.mp hx).2
  exact of_decide_eq_true this

/-- C2 counterexample: an href absorbed from `result.links["internal"]`
is not domain-filtered.  With request URL `http://ex.com` and a crawl
result whose internal links contain `http://evil.com/x`, the returned
record's links contain a URL of a different network location. -/
theorem web_links_same_host_counterexample :
    "http://evil.com/x" ∈
      (handle_web_record "http://ex.com"
        ⟨true, "", "http://ex.com", .mdObj "" none, some [some "http://evil.com/x"]⟩
        none).links ∧
    netlocOf "http://evil.com/x" ≠ netlocOf "http://ex.com" := by
  constructor
  · decide
  · decide

/-- C2 (amended): every URL in a web record's links is either one of
the hrefs absorbed verbatim from `result.links["internal"]` (which the
code does not domain-filter) or has a network location equal to the
request URL's; markdown-extracted links and sitemap-merged links
always satisfy the netloc equality. -/
theorem web_links_same_host_amended (url : String) (r : CrawlResult)
    (sitemapRaw : Option (List String)) :
    ∀ l ∈ (handle_web_record url r sitemapRaw).links,
      l ∈ internalHrefsOf r ∨ netlocOf l = netlocOf url := by
  intro l hl
  have hl2 : l ∈ handle_web_links url r sitemapRaw := hl
  simp only [handle_web_links] at hl2
  by_cases hroot : isRootUrl url
  · rw [if_pos hroot] at hl2
    cases sitemapRaw with
    | none => exact extract_web_metadata_links_cases r url l hl2
    | some raw =>
      simp only [] at hl2
      by_cases hsm : !(sitemap_final_urls url raw).isEmpty
      · rw [if_pos hsm] at hl2
        rcases List.mem_append.mp hl2 with h | h
        · exact extract_web_metadata_links_cases r url l h
        · exact Or.inr (sitemap_final_urls_same_host url raw l (List.mem_filter.mp h).1)
      · rw [if_neg hsm] at hl2
        exact extract_web_metadata_links_cases r url l hl2
  · rw [if_neg hroot] at hl2
    exact extract_web_metadata_links_cases r url l hl2

/-- C2 witness: the amended statement at a concrete same-host record. -/
theorem web_links_same_host_amended_witness :
    "http://ex.com/docs" ∈
      (handle_web_record "http://ex.com"
        ⟨true, "", "http://ex.com", .mdObj "" none, some [some "http://ex.com/docs"]⟩
        none).links ∧
    ("http://ex.com/docs" ∈ internalHrefsOf
        ⟨true, "", "http://ex.com", .mdObj "" none, some [some "http://ex.com/docs"]⟩ ∨
      netlocOf "http://ex.com/docs" = netlocOf "http://ex.com") :=
  ⟨by decide,
    web_links_same_host_amended "http://ex.com"
      ⟨true, "", "http://ex.com", .mdObj "" none, some [some "http://ex.com/docs"]⟩
      none "http://ex.com/docs" (by decide)⟩

/-- C9: the sitemap resolver terminates on every input (it is a total
function of the oracle), a branch entered at `depth > 3` returns the
empty list and fetches nothing, and a sitemap index at `depth ≤ 3`
resolves each child at `depth + 1`. -/
theorem sitemap_resolver_depth_bound (oracle : String → SitemapDoc)
    (b url : String) (depth : Nat) :
    (MAX_SITEMAP_INDEX_DEPTH < depth →
      resolve_sitemap oracle b url depth = ([], [])) ∧
    (∀ children, depth ≤ MAX_SITEMAP_INDEX_DEPTH →
      oracle url = .index children →
      resolve_sitemap oracle b url depth =
        ((children.map (fun c => (resolve_sitemap oracle b c (depth + 1)).1)).flatten,
          url ::
            (children.map (fun c => (resolve_sitemap oracle b c (depth + 1)).2)).flatten)) := by
  constructor
  · intro hd
    have h0 : MAX_SITEMAP_INDEX_DEPTH + 1 - depth = 0 := by
      simp only [MAX_SITEMAP_INDEX_DEPTH] at hd ⊢
      omega
    rw [resolve_sitemap, h0]
    rfl
  · intro children hd horacle
    have h1 : MAX_SITEMAP_INDEX_DEPTH + 1 - depth =
        (MAX_SITEMAP_INDEX_DEPTH - depth) + 1 := by
      simp only [MAX_SITEMAP_INDEX_DEPTH] at hd ⊢
      omega
    have h2 : MAX_SITEMAP_INDEX_DEPTH + 1 - (depth + 1) =
        MAX_SITEMAP_INDEX_DEPTH - depth := by
      omega
    simp only [resolve_sitemap, h1, h2, resolveSitemapGo, horacle]
    simp only [List.map_map, Prod.mk.injEq, List.cons.injEq, true_and]
    constructor
    · apply congrArg List.flatten
      apply List.map_congr_left
      intro c _
      rfl
    · apply congrArg List.flatten
      apply List.map_congr_left
      intro c _
      rfl

/-- C9 witness: a sitemap index at depth 0 resolves its two children
at depth 1, and any resolution entered at depth 4 is empty. -/
theorem sitemap_resolver_depth_bound_witness :
    ((fun _ => SitemapDoc.index ["http://ex.com/a.xml", "http://ex.com/b.xml"])
        "http://ex.com/sitemap.xml" =
      SitemapDoc.index ["http://ex.com/a.xml", "http://ex.com/b.xml"]) ∧
    resolve_sitemap (fun _ => .index ["http://ex.com/a.xml", "http://ex.com/b.xml"])
        "ex.com" "http://ex.com/sitemap.xml" 0 =
      ((["http://ex.com/a.xml", "http://ex.com/b.xml"].map (fun c =>
          (resolve_sitemap
            (fun _ => .index ["http://ex.com/a.xml", "http://ex.com/b.xml"])
            "ex.com" c 1).1)).flatten,
        "http://ex.com/sitemap.xml" ::
          (["http://ex.com/a.xml", "http://ex.com/b.xml"].map (fun c =>
            (resolve_sitemap
              (fun _ => .index ["http://ex.com/a.xml", "http://ex.com/b.xml"])
              "ex.com" c 1).2)).flatten) ∧
    resolve_sitemap (fun _ => .index ["http://ex.com/a.xml", "http://ex.com/b.xml"])
        "ex.com" "http://ex.com/deep.xml" 4 = ([], []) :=
  ⟨rfl,
    (sitemap_resolver_depth_bound
      (fun _ => .index ["http://ex.com/a.xml", "http://ex.com/b.xml"]) "ex.com"
      "http://ex.com/sitemap.xml" 0).2
      ["http://ex.com/a.xml", "http://ex.com/b.xml"] (by decide) rfl,
    (sitemap_resolver_depth_bound
      (fun _ => .index ["http://ex.com/a.xml", "http://ex.com/b.xml"]) "ex.com"
      "http://ex.com/deep.xml" 4).1 (by decide)⟩

/-- C8: after a successful crawl attempt on a call that could use the
LLM filter and while the circuit is closed, a blank (`None` or
whitespace-only) `fit_markdown` increments `consecutive_failures` and,
when the count reaches the threshold 3, sets `open_until = now + 300`;
a non-blank `fit_markdown` resets both to zero; and while
`now < open_until` a non-bypass URL gets the default markdown
generator (no LLM filter). -/
theorem llm_circuit_breaker (st : LlmCircuit) (now : Nat) (md : MarkdownVal)
    (url token : String) (hopen : isLlmCircuitOpen now st = false) :
    (llmFilterFailed md = true →
      (updateCircuitAfterSuccess true now st md).consecutiveFailures =
        st.consecutiveFailures + 1 ∧
      (st.consecutiveFailures + 1 ≥ LLM_CIRCUIT_THRESHOLD →
        (updateCircuitAfterSuccess true now st md).openUntil =
          now + LLM_CIRCUIT_COOLDOWN_S) ∧
      (st.consecutiveFailures + 1 < LLM_CIRCUIT_THRESHOLD →
        (updateCircuitAfterSuccess true now st md).openUntil = st.openUntil)) ∧
    (llmFilterFailed md = false →
      updateCircuitAfterSuccess true now st md = ⟨0, 0⟩) ∧
    (∀ (st2 : LlmCircuit) (now2 : Nat), isTextFileUrl url = false →
      now2 < st2.openUntil → chooseGenerator url token now2 st2 = .dflt) := by
  refine ⟨?_, ?_, ?_⟩
  · intro hfail
    have hupd : updateCircuitAfterSuccess true now st md = recordLlmFailure now st := by
      simp [updateCircuitAfterSuccess, hopen, hfail]
    rw [hupd]
    refine ⟨rfl, ?_, ?_⟩
    · intro hth
      simp only [recordLlmFailure]
      exact if_pos hth
    · intro hth
      simp only [recordLlmFailure]
      exact if_neg (by omega)
  · intro hfail
    have hupd : updateCircuitAfterSuccess true now st md = recordLlmSuccess := by
      simp [updateCircuitAfterSuccess, hopen, hfail]
    rw [hupd]
    rfl
  · intro st2 now2 htxt h2
    simp [chooseGenerator, htxt, isLlmCircuitOpen, h2]

/-- C8 witness: with two prior consecutive failures and a closed
circuit at time 100, a whitespace-only `fit_markdown` raises the count
to the threshold 3 and opens the circuit until 400; and at time 50
with `open_until = 400`, a non-bypass URL gets the default
generator. -/
theorem llm_circuit_breaker_witness :
    isLlmCircuitOpen 100 ⟨2, 0⟩ = false ∧
    llmFilterFailed (.mdObj "raw content" (some "  ")) = true ∧
    (updateCircuitAfterSuccess true 100 ⟨2, 0⟩
        (.mdObj "raw content" (some "  "))).consecutiveFailures = 2 + 1 ∧
    (updateCircuitAfterSuccess true 100 ⟨2, 0⟩
        (.mdObj "raw content" (some "  "))).openUntil = 100 + LLM_CIRCUIT_COOLDOWN_S ∧
    isTextFileUrl "http://ex.com/docs" = false ∧
    chooseGenerator "http://ex.com/docs" "tok" 50 ⟨3, 400⟩ = .dflt := by
  have h := llm_circuit_breaker ⟨2, 0⟩ 100 (.mdObj "raw content" (some "  "))
    "http://ex.com/docs" "tok" (by decide)
  have h1 := h.1 (by decide)
  refine ⟨by decide, by decide, h1.1, h1.2.1 (by decide), by decide, ?_⟩
  exact h.2.2 ⟨3, 400⟩ 50 (by decide) (by decide)

/-- Helper: a field looked up with `dict.get` on the decoded task does
not contain the secret, as long as the looked-up key is not
`gemini_api_key`, the other fields are secret-free and the default is
secret-free. -/
theorem jGetD_not_occurs (secret : String) (data : List (String × JValue))
    (k : String) (dflt : JValue)
    (hdata : ∀ kv ∈ data, kv.1 ≠ "gemini_api_key" → ¬ JOccurs secret kv.2)
    (hk : k ≠ "gemini_api_key") (hdflt : ¬ JOccurs secret dflt) :
    ¬ JOccurs secret (jGetD data k dflt) := by
  unfold jGetD
  rcases hfind : data.find? (fun kv => kv.1 == k) with _ | kv
  · rw [hfind]
    exact hdflt
  · rw [hfind]
    have hmem : kv ∈ data := List.mem_of_find?_eq_some hfind
    have hpred : kv.1 = k := by simpa using List.find?_some hfind
    exact hdata kv hmem (hpred ▸ hk)

theorem jOr_not_occurs {secret : String} {a b : JValue}
    (ha : ¬ JOccurs secret a) (hb : ¬ JOccurs secret b) :
    ¬ JOccurs secret (jOr a b) := by
  unfold jOr
  split
  · exact ha
  · exact hb

/-- Freshness of a handler record with respect to a secret: the secret
occurs in none of its string fields, links or metadata values. -/
def RecordFresh (secret : String) (rec : ContentRecord) : Prop :=
  strContains rec.content secret = false ∧
  strContains rec.title secret = false ∧
  strContains rec.url secret = false ∧
  strContains rec.path secret = false ∧
  (∀ l ∈ rec.links, strContains l secret = false) ∧
  (∀ kv ∈ rec.metadata, ¬ JOccurs secret kv.2)

theorem successPayload_not_occurs (secret : String)
    (data : List (String × JValue)) (rec : ContentRecord)
    (hdata : ∀ kv ∈ data, kv.1 ≠ "gemini_api_key" → ¬ JOccurs secret kv.2)
    (hrec : RecordFresh secret rec)
    (hu : strContains "unknown" secret = false)
    (hs : strContains "success" secret = false) :
    ∀ kv ∈ successPayload data rec, ¬ JOccurs secret kv.2 := by
  obtain ⟨hc, ht, hurl, hpath, hlinks, hmeta⟩ := hrec
  have hsid : ¬ JOccurs secret (jGetD data "id" (.str "unknown")) :=
    jGetD_not_occurs secret data "id" (.str "unknown") hdata (by decide)
      (not_jOccurs_str hu)
  intro kv hkv
  simp only [successPayload, List.mem_cons, List.not_mem_nil, or_false] at hkv
  rcases hkv with rfl | rfl | rfl | rfl | rfl | rfl | rfl | rfl | rfl | rfl
  · exact hsid
  · exact hsid
  · exact not_jOccurs_str hc
  · rw [jOccurs_obj_iff]
    rintro ⟨kv', hm, ho⟩
    exact hmeta kv' hm ho
  · exact not_jOccurs_str ht
  · exact not_jOccurs_str hurl
  · exact not_jOccurs_str hpath
  · exact not_jOccurs_str hs
  · rw [jOccurs_arr_strs_iff]
    rintro ⟨t, htl, hct⟩
    rw [hlinks t htl] at hct
    cases hct
  · exact jGetD_not_occurs secret data "depth" (.num 0) hdata (by decide)
      not_jOccurs_num

theorem noContentPayload_not_occurs (secret : String)
    (data : List (String × JValue))
    (hdata : ∀ kv ∈ data, kv.1 ≠ "gemini_api_key" → ¬ JOccurs secret kv.2)
    (hu : strContains "unknown" secret = false)
    (hf : strContains "failed" secret = false)
    (hn : strContains "No content extracted" secret = false)
    (he : strContains "" secret = false) :
    ∀ kv ∈ noContentPayload data, ¬ JOccurs secret kv.2 := by
  have hsid : ¬ JOccurs secret (jGetD data "id" (.str "unknown")) :=
    jGetD_not_occurs secret data "id" (.str "unknown") hdata (by decide)
      (not_jOccurs_str hu)
  intro kv hkv
  simp only [noContentPayload, List.mem_cons, List.not_mem_nil, or_false] at hkv
  rcases hkv with rfl | rfl | rfl | rfl | rfl | rfl
  · exact hsid
  · exact hsid
  · exact not_jOccurs_str hf
  · exact not_jOccurs_str hn
  · exact jGetD_not_occurs secret data "url" (.str "") hdata (by decide)
      (not_jOccurs_str he)
  · exact not_jOccurs_str he

/-- C3 counterexample: a terminal failure payload carries the decoded
task verbatim as `original_payload`, including the `gemini_api_key`
value.  A web task carrying the key `sk-SECRET-KEY-12345` that fails
with the permanent error `CRAWL_BLOCKED` on its first delivery
publishes a payload in which the key value occurs. -/
theorem gemini_key_payload_counterexample :
    ingestionFailPayload
        [("id", .str "t1"), ("type", .str "web"), ("url", .str "http://ex.com"),
          ("gemini_api_key", .str "sk-SECRET-KEY-12345")]
        ⟨ERR_CRAWL_BLOCKED, "blocked by robots.txt"⟩ ∈
      (process_message defaultSettings
        [("id", .str "t1"), ("type", .str "web"), ("url", .str "http://ex.com"),
          ("gemini_api_key", .str "sk-SECRET-KEY-12345")] 1
        (.errIngestion ⟨ERR_CRAWL_BLOCKED, "blocked by robots.txt"⟩)).published ∧
    ∃ kv ∈ ingestionFailPayload
        [("id", .str "t1"), ("type", .str "web"), ("url", .str "http://ex.com"),
          ("gemini_api_key", .str "sk-SECRET-KEY-12345")]
        ⟨ERR_CRAWL_BLOCKED, "blocked by robots.txt"⟩,
      JOccurs "sk-SECRET-KEY-12345" kv.2 := by
  constructor
  · have hpub : (process_message defaultSettings
        [("id", .str "t1"), ("type", .str "web"), ("url", .str "http://ex.com"),
          ("gemini_api_key", .str "sk-SECRET-KEY-12345")] 1
        (.errIngestion ⟨ERR_CRAWL_BLOCKED, "blocked by robots.txt"⟩)).published =
        [ingestionFailPayload
          [("id", .str "t1"), ("type", .str "web"), ("url", .str "http://ex.com"),
            ("gemini_api_key", .str "sk-SECRET-KEY-12345")]
          ⟨ERR_CRAWL_BLOCKED, "blocked by robots.txt"⟩] := rfl
    rw [hpub]
    exact List.mem_singleton.mpr rfl
  · refine ⟨("original_payload",
      .obj [("id", .str "t1"), ("type", .str "web"), ("url", .str "http://ex.com"),
        ("gemini_api_key", .str "sk-SECRET-KEY-12345")]), ?_, ?_⟩
    · simp [ingestionFailPayload]
    · exact .objTail (.objTail (.objTail (.objHead (.str (by decide)))))

/-- C3 (amended): the `gemini_api_key` value never appears in the
`message_received` log record (whose data has the key filtered out),
nor in any payload published on the success path — the per-record
success payloads and the "No content extracted" failure payload.
Terminal failure payloads are excluded: they embed the decoded task
verbatim as `original_payload`, which preserves the key by design.
Freshness hypotheses state that the secret does not already occur in
the other task fields, in the handler output, or in the fixed literal
strings of the payloads. -/
theorem gemini_key_redaction_amended (cfg : Settings)
    (data : List (String × JValue)) (attempts : Nat)
    (results : List ContentRecord) (secret : String)
    (hdata : ∀ kv ∈ data, kv.1 ≠ "gemini_api_key" → ¬ JOccurs secret kv.2)
    (hres : ∀ rec ∈ results, RecordFresh secret rec)
    (hu : strContains "unknown" secret = false)
    (hs : strContains "success" secret = false)
    (hf : strContains "failed" secret = false)
    (hn : strContains "No content extracted" secret = false)
    (he : strContains "" secret = false) :
    (∀ kv ∈ (process_message cfg data attempts (.ok results)).messageReceivedData,
      kv.1 ≠ "gemini_api_key" ∧ ¬ JOccurs secret kv.2) ∧
    (∀ p ∈ (process_message cfg data attempts (.ok results)).published,
      ∀ kv ∈ p, ¬ JOccurs secret kv.2) := by
  constructor
  · intro kv hkv
    have hkv2 : kv ∈ safeData data := by
      cases results with
      | nil => exact hkv
      | cons r0 rs => exact hkv
    have h1 := (List.mem_filter.mp hkv2).1
    have h2 : kv.1 ≠ "gemini_api_key" :=
      of_decide_eq_true (List.mem_filter.mp hkv2).2
    exact ⟨h2, hdata kv h1 h2⟩
  · intro p hp
    cases results with
    | nil =>
      have hp2 : p ∈ [noContentPayload data] := hp
      rw [List.mem_singleton.mp hp2]
      exact noContentPayload_not_occurs secret data hdata hu hf hn he
    | cons r0 rs =>
      have hp2 : p ∈ (r0 :: rs).map (successPayload data) := hp
      obtain ⟨rec, hrmem, rfl⟩ := List.mem_map.mp hp2
      exact successPayload_not_occurs secret data rec hdata (hres rec hrmem) hu hs

/-- C3 witness: the amended redaction at a concrete web task carrying
the key `sk-SECRET-KEY-12345` whose dispatch produced no records. -/
theorem gemini_key_redaction_amended_witness :
    (∀ kv ∈ (process_message defaultSettings
        [("id", .str "t1"), ("type", .str "web"), ("url", .str "http://ex.com"),
          ("gemini_api_key", .str "sk-SECRET-KEY-12345")] 1
        (.ok [])).messageReceivedData,
      kv.1 ≠ "gemini_api_key" ∧ ¬ JOccurs "sk-SECRET-KEY-12345" kv.2) ∧
    (∀ p ∈ (process_message defaultSettings
        [("id", .str "t1"), ("type", .str "web"), ("url", .str "http://ex.com"),
          ("gemini_api_key", .str "sk-SECRET-KEY-12345")] 1
        (.ok [])).published,
      ∀ kv ∈ p, ¬ JOccurs "sk-SECRET-KEY-12345" kv.2) := by
  apply gemini_key_redaction_amended
  · intro kv hkv hne
    simp only [List.mem_cons, List.not_mem_nil, or_false] at hkv
    rcases hkv with rfl | rfl | rfl | rfl
    · exact not_jOccurs_str (by decide)
    · exact not_jOccurs_str (by decide)
    · exact not_jOccurs_str (by decide)
    · exact absurd rfl hne
  · intro rec hrec
    cases hrec
  · decide
  · decide
  · decide
  · decide
  · decide

end Qurio
